import Mathlib

/-!
Verification of the Plane.so issue tool API client (src/api/plane_client.py).

The development shallowly embeds the client in Lean:

* JSON values are a small inductive type `Json`; Python dict lookups,
  truthiness tests and f-string conversion are modelled by executable
  functions on it.
* The transport layer (`PlaneClient._make_request`, lines 74-137) is the
  function `makeRequest`: the behaviour of the network on each transport
  attempt is an environment `env : Nat → AttemptOutcome`, and the function
  returns the final outcome together with the list of requests sent and the
  list of sleep durations, so that retry counts, waits and re-sent requests
  are observable.
* A central modelling fact: `requests.exceptions.HTTPError`, raised by
  `response.raise_for_status()`, is a subclass of
  `requests.exceptions.RequestException`, so the `except RequestException`
  handler in `_make_request` catches it and retries.  The embedding encodes
  this by routing every received status in 400..599 other than the
  specially handled 400/403/429 through the same retry branch as a
  transport-level failure.
* Higher-level entity operations (`create_issue`, `cleanup_project`, ...)
  are embedded over an operation-level oracle: a list of outcomes, one per
  `_make_request` invocation, consumed in order, with the issued calls and
  the recorded warnings tracked in an explicit state.
-/

/-- Minimal JSON value model covering the shapes the client manipulates. -/
inductive Json where
  | null : Json
  | bool (b : Bool) : Json
  | num (n : Int) : Json
  | str (s : String) : Json
  | arr (items : List Json) : Json
  | obj (fields : List (String × Json)) : Json

/-- First-match association lookup, as Python dict subscripting and `.get`
observe it on our ordered-field representation. -/
def lookupField : List (String × Json) → String → Option Json
  | [], _ => none
  | (k, v) :: rest, key => if k == key then some v else lookupField rest key

/-- Python `d.get(key)`: `some` value for objects holding the key, else `none`. -/
def Json.get? : Json → String → Option Json
  | .obj fs, key => lookupField fs key
  | _, _ => none

/-- Python `d.get(key, default)`. -/
def Json.getD (j : Json) (key : String) (default : Json) : Json :=
  (j.get? key).getD default

/-- Python truthiness of a JSON value. -/
def Json.pyTruthy : Json → Bool
  | .null => false
  | .bool b => b
  | .num n => !(n == 0)
  | .str s => !(s == "")
  | .arr items => !items.isEmpty
  | .obj fs => !fs.isEmpty

/-- Python `isinstance(v, dict)`. -/
def Json.isObj : Json → Bool
  | .obj _ => true
  | _ => false

/-- Python `str(v)` as used when a JSON value is spliced into an f-string
path.  Ids occurring in paths are strings in practice; other shapes get a
best-effort rendering. -/
def Json.asPathStr : Json → String
  | .str s => s
  | .num n => toString n
  | .bool b => if b then "True" else "False"
  | .null => "None"
  | .arr _ => "[array]"
  | .obj _ => "[object]"

/-- List-of-characters prefix test. -/
def isPrefixL : List Char → List Char → Bool
  | [], _ => true
  | _ :: _, [] => false
  | a :: as, b :: bs => a == b && isPrefixL as bs

/-- List-of-characters substring test. -/
def containsL (hay needle : List Char) : Bool :=
  isPrefixL needle hay ||
    match hay with
    | [] => false
    | _ :: t => containsL t needle

/-- Python `needle in hay` on strings. -/
def strContains (hay needle : String) : Bool :=
  containsL hay.data needle.data

/-- Parse a decimal digit. -/
def digitVal? (c : Char) : Option Nat :=
  if c.isDigit then some (c.toNat - 48) else none

/-- Accumulate decimal digits; any non-digit fails. -/
def decNatAux : List Char → Nat → Option Nat
  | [], acc => some acc
  | c :: cs, acc =>
    match digitVal? c with
    | some d => decNatAux cs (10 * acc + d)
    | none => none

/-- Parse a non-empty run of decimal digits. -/
def decNat? : List Char → Option Nat
  | [] => none
  | cs => decNatAux cs 0

/-- Model of Python `int(s)` on header text: optional sign followed by
decimal digits (whitespace and underscore tolerance of CPython is not
needed by any claim). -/
def pyInt? (s : String) : Option Int :=
  match s.data with
  | '-' :: cs => (decNat? cs).map (fun n => -(n : Int))
  | '+' :: cs => (decNat? cs).map (fun n => (n : Int))
  | cs => (decNat? cs).map (fun n => (n : Int))

/-- The exceptions the client can raise or observe.  `httpError` is the
`requests.HTTPError` produced by `raise_for_status`; since that class
subclasses `RequestException`, it is caught by the retry handler exactly
like `netError`. -/
inductive PError where
  | netError : PError
  | httpError (status : Nat) : PError
  | apiError (status : Nat) (body : String) : PError
  | retryExhausted (last : PError) : PError
  | maxRetriesExceeded : PError
  | valueConversion : PError
  | jsonDecodeError : PError
  | keyError (key : String) : PError
  | typeError : PError
  | noMoreResponses : PError
deriving DecidableEq

/-- The validated client state (fields set in `__init__`, lines 25-47). -/
structure Client where
  apiKey : String
  workspaceSlug : String
  projectId : String
  baseUrl : String
  retryDelay : Int
  maxRetries : Nat

/-- Headers attached to every request (lines 42-47). -/
def clientHeaders (c : Client) : List (String × String) :=
  [("Content-Type", "application/json"),
   ("x-api-key", c.apiKey),
   ("Accept", "*/*"),
   ("User-Agent", "curl/8.7.1")]

def projectPrefix (c : Client) : String :=
  "/workspaces/" ++ c.workspaceSlug ++ "/projects/" ++ c.projectId

def modulesEndpoint (c : Client) : String :=
  projectPrefix c ++ "/modules/"

def moduleDetailEndpoint (c : Client) (moduleId : String) : String :=
  projectPrefix c ++ "/modules/" ++ moduleId ++ "/"

def moduleIssuesEndpoint (c : Client) (moduleId : String) : String :=
  projectPrefix c ++ "/modules/" ++ moduleId ++ "/module-issues/"

def issuesEndpoint (c : Client) : String :=
  projectPrefix c ++ "/issues/"

def issueDetailEndpoint (c : Client) (issueId : String) : String :=
  projectPrefix c ++ "/issues/" ++ issueId ++ "/"

def issueCommentsEndpoint (c : Client) (issueId : String) : String :=
  projectPrefix c ++ "/issues/" ++ issueId ++ "/comments/"

/-- A received HTTP response, as `_make_request` observes it.
`bodyJsonId` abstracts `json.loads(response.text)["id"]`: `some` when the
body parses to an object carrying an `id`, `none` when that evaluation
would raise.  `respJson` abstracts `response.json()`. -/
structure HttpResponse where
  status : Nat
  retryAfter : Option String
  bodyText : String
  bodyJsonId : Option String
  respJson : Option Json

/-- How one transport attempt (`requests.request`) behaves: it either
raises a `RequestException` or hands back a response. -/
inductive AttemptOutcome where
  | raises : AttemptOutcome
  | returns (r : HttpResponse) : AttemptOutcome

/-- One request as put on the wire: method, full URL, headers, JSON body. -/
structure SentRequest where
  method : String
  url : String
  headers : List (String × String)
  body : Option Json

/-- Observable outcome of `_make_request`: final result, the requests sent
(one per transport attempt, in order) and the sleep durations (in order). -/
structure MRes where
  result : Except PError Json
  sent : List SentRequest
  sleeps : List Int

/-- The message tested for in the 400 special case (line 110). -/
def moduleExistsMsg : String := "Module with this name already exists"

/-- Statuses on which `raise_for_status` raises and which are not the
specially handled 400/403/429: these flow into the `except
RequestException` handler because `HTTPError` subclasses
`RequestException`. -/
def retryableStatus (s : Nat) : Bool :=
  decide (400 ≤ s) && decide (s < 600) && !(s == 400) && !(s == 403) && !(s == 429)

/-- Lines 119-125: the success path after `raise_for_status` passes. -/
def successValue (method : String) (r : HttpResponse) : Except PError Json :=
  if method == "DELETE" || r.bodyText == "" then .ok (.obj [])
  else
    match r.respJson with
    | some j => .ok j
    | none => .error .jsonDecodeError

/-- Lines 107-125: the verdict on a received response whose status settles
the request in this iteration (anything except 429 and the statuses
re-raised as `HTTPError` and retried). -/
def terminalResult (method : String) (r : HttpResponse) : Except PError Json :=
  if r.status == 400 || r.status == 403 then
    if r.status == 400 && strContains r.bodyText moduleExistsMsg then
      match r.bodyJsonId with
      | some i => .ok (.obj [("id", .str i)])
      | none => .error .jsonDecodeError
    else .error (.apiError r.status r.bodyText)
  else successValue method r

/-- Line 101: the wait before a rate-limit retry, from the Retry-After
header, defaulting to the fixed delay; `none` when `int(...)` raises. -/
def retryWait (c : Client) (r : HttpResponse) : Option Int :=
  match r.retryAfter with
  | none => some c.retryDelay
  | some s => pyInt? s

/-- The request data put on the wire each iteration (lines 86-91). -/
def sentRequest (c : Client) (method endpoint : String) (data : Option Json) : SentRequest :=
  ⟨method, c.baseUrl ++ "/api/v1" ++ endpoint, clientHeaders c, data⟩

/-- The `while retries < self.max_retries` loop of `_make_request`
(lines 79-137).  `fuel` equals `maxRetries - retries`, so `fuel = 0` is
exactly the loop exiting and raising "Maximum retries exceeded"; both retry
branches advance `retries` by one and the environment is shifted so the
next iteration consults the next attempt outcome. -/
def makeRequestAux (c : Client) (method endpoint : String) (data : Option Json)
    (env : Nat → AttemptOutcome) : Nat → Nat → MRes
  | 0, _ => ⟨.error .maxRetriesExceeded, [], []⟩
  | fl + 1, retries =>
    let req := sentRequest c method endpoint data
    match env 0 with
    | .raises =>
      -- lines 127-134: transport failure caught by except RequestException
      if retries < c.maxRetries - 1 then
        let rest := makeRequestAux c method endpoint data (fun i => env (i + 1)) fl (retries + 1)
        ⟨rest.result, req :: rest.sent, c.retryDelay :: rest.sleeps⟩
      else ⟨.error (.retryExhausted .netError), [req], []⟩
    | .returns r =>
      if r.status == 429 then
        -- lines 100-105: rate limiting
        match retryWait c r with
        | none => ⟨.error .valueConversion, [req], []⟩
        | some w =>
          let rest := makeRequestAux c method endpoint data (fun i => env (i + 1)) fl (retries + 1)
          ⟨rest.result, req :: rest.sent, w :: rest.sleeps⟩
      else if retryableStatus r.status then
        -- line 117 raises HTTPError, caught at line 127 as a RequestException
        if retries < c.maxRetries - 1 then
          let rest := makeRequestAux c method endpoint data (fun i => env (i + 1)) fl (retries + 1)
          ⟨rest.result, req :: rest.sent, c.retryDelay :: rest.sleeps⟩
        else ⟨.error (.retryExhausted (.httpError r.status)), [req], []⟩
      else ⟨terminalResult method r, [req], []⟩

/-- `PlaneClient._make_request` (lines 74-137). -/
def makeRequest (c : Client) (method endpoint : String) (data : Option Json)
    (env : Nat → AttemptOutcome) : MRes :=
  makeRequestAux c method endpoint data env c.maxRetries 0

/-- Request body for module creation (lines 148-151). -/
def moduleData (name : String) : Json :=
  .obj [("name", .str name), ("description", .str ("Module for " ++ name))]

/-- `PlaneClient.create_module` (lines 145-161).  The `except` branch at
lines 155-161 probes `e.response`; no exception raised by `_make_request`
carries a `response` attribute (it raises plain `Exception`, `ValueError`
or `KeyError`), so that branch always re-raises. -/
def create_module (c : Client) (name : String) (env : Nat → AttemptOutcome) :
    Except PError Json :=
  match (makeRequest c "POST" (modulesEndpoint c) (some (moduleData name)) env).result with
  | .ok j =>
    match j.get? "id" with
    | some v => .ok v
    | none => .error (.keyError "id")
  | .error e => .error e

/-! ## Client construction (lines 12-72) -/

/-- The environment variables read in `__init__` (lines 25-28); `none`
models an unset variable. -/
structure EnvVars where
  planeApiKey : Option String
  planeWorkspaceSlug : Option String
  planeProjectId : Option String
  planeHost : Option String

/-- How the probe request of `_validate_api_connection` (lines 58-61)
behaves: a transport failure or a received status. -/
inductive ProbeOutcome where
  | raises : ProbeOutcome
  | returns (status : Nat) : ProbeOutcome

/-- The cause a construction failure carries in its message. -/
inductive InitError where
  | invalidApiKey : InitError
  | missingEnvVars : InitError
  | probeTransport : InitError
  | probeAuth401 : InitError
  | probeHttpStatus (status : Nat) : InitError
deriving DecidableEq

/-- Outcome of `PlaneClient.__init__`: whether the probe request went on
the network at all, and the constructed client or the raised error. -/
structure InitOutcome where
  probeAttempted : Bool
  result : Except InitError Client

/-- Python truthiness of an optional string (unset and empty are falsy). -/
def pyTruthyOpt : Option String → Bool
  | none => false
  | some s => !(s == "")

/-- `PlaneClient.__init__` together with `_validate_api_connection`
(lines 25-72).  The api-key and workspace/project validations happen
before the probe; every probe failure (transport, 401, or a status on
which `raise_for_status` raises) is wrapped into a `ValueError` by the
handler at lines 70-72. -/
def clientInit (e : EnvVars) (probe : ProbeOutcome) : InitOutcome :=
  let baseUrl := e.planeHost.getD "https://lub.11data.de"
  if !pyTruthyOpt e.planeApiKey || (e.planeApiKey.getD "").length < 32 then
    ⟨false, .error .invalidApiKey⟩
  else if !pyTruthyOpt e.planeWorkspaceSlug || !pyTruthyOpt e.planeProjectId then
    ⟨false, .error .missingEnvVars⟩
  else
    match probe with
    | .raises => ⟨true, .error .probeTransport⟩
    | .returns s =>
      if s == 401 then ⟨true, .error .probeAuth401⟩
      else if decide (400 ≤ s) && decide (s < 600) then ⟨true, .error (.probeHttpStatus s)⟩
      else
        ⟨true, .ok ⟨e.planeApiKey.getD "", e.planeWorkspaceSlug.getD "",
                    e.planeProjectId.getD "", baseUrl, 5, 3⟩⟩

/-- Shape validity of the configuration, as `__init__` checks it before
any network activity. -/
def shapeValid (e : EnvVars) : Bool :=
  pyTruthyOpt e.planeApiKey && decide (32 ≤ (e.planeApiKey.getD "").length)
    && pyTruthyOpt e.planeWorkspaceSlug && pyTruthyOpt e.planeProjectId

/-! ## Operation layer

The entity operations call `self._make_request` once per remote call.  For
them the transport layer is abstracted by an oracle: a list of
`_make_request` outcomes consumed in order.  The state tracks the calls
issued and the warnings recorded. -/

/-- One `_make_request` invocation as an entity operation issues it. -/
structure ApiCall where
  method : String
  endpoint : String
  body : Option Json

/-- Operation-layer state: pending oracle outcomes, calls issued so far,
warnings recorded so far. -/
structure OpState where
  pending : List (Except PError Json)
  calls : List ApiCall
  warnings : List String

/-- Issue one `_make_request` call: record it and consume the next oracle
outcome. -/
def runCall (st : OpState) (call : ApiCall) : OpState × Except PError Json :=
  match st.pending with
  | [] => (⟨[], st.calls ++ [call], st.warnings⟩, .error .noMoreResponses)
  | r :: rest => (⟨rest, st.calls ++ [call], st.warnings⟩, r)

/-- Record a warning. -/
def pushWarning (st : OpState) (w : String) : OpState :=
  ⟨st.pending, st.calls, st.warnings ++ [w]⟩

/-- The local issue representation (src/models/issue.py, class Issue).
The unused `properties` field is omitted: `create_issue` never reads it. -/
structure Issue where
  name : String
  description : String
  module_id : Option String

/-- Python truthiness of `issue.module_id` (Optional[str]). -/
def pyTruthyOptStr : Option String → Bool
  | none => false
  | some s => !(s == "")

/-- The fixed state id sent with every issue creation (line 215). -/
def defaultStateId : String := "7ee23e4f-6c29-49c6-8220-06991ecd95f2"

/-- Comment payload (lines 182-199). -/
def commentData (comment : String) : Json :=
  .obj [("comment", .str comment),
        ("comment_html", .str comment),
        ("comment_json",
          .obj [("type", .str "doc"),
                ("content",
                  .arr [.obj [("type", .str "paragraph"),
                              ("content",
                                .arr [.obj [("type", .str "text"),
                                            ("text", .str comment)]])]])])]

/-- `PlaneClient.create_comment` (lines 179-200). -/
def create_comment (c : Client) (issueId comment : String) (st : OpState) :
    OpState × Except PError Json :=
  runCall st ⟨"POST", issueCommentsEndpoint c issueId, some (commentData comment)⟩

/-- `PlaneClient.link_issue_to_module` (lines 202-208). -/
def link_issue_to_module (c : Client) (issueId moduleId : String) (st : OpState) :
    OpState × Except PError Json :=
  runCall st ⟨"POST", moduleIssuesEndpoint c moduleId,
              some (.obj [("issues", .arr [.str issueId])])⟩

/-- `PlaneClient.create_issue` (lines 210-231).  The comment step, with
its `response["id"]` subscript, sits inside a try/except that records a
warning and continues; the module-link step is unguarded, so its failure
(and a missing `id` there) propagates. -/
def create_issue (c : Client) (issue : Issue) (st : OpState) :
    OpState × Except PError Json :=
  let p := runCall st ⟨"POST", issuesEndpoint c,
                       some (.obj [("name", .str issue.name),
                                   ("state", .str defaultStateId)])⟩
  match p.2 with
  | .error e => (p.1, .error e)
  | .ok response =>
    let st1 :=
      if issue.description == "" then p.1
      else
        match response.get? "id" with
        | some v =>
          let q := create_comment c v.asPathStr issue.description p.1
          match q.2 with
          | .ok _ => q.1
          | .error _ => pushWarning q.1 "Warning: Could not add description comment"
        | none => pushWarning p.1 "Warning: Could not add description comment"
    if pyTruthyOptStr issue.module_id then
      match response.get? "id" with
      | some v =>
        let r := link_issue_to_module c v.asPathStr (issue.module_id.getD "") st1
        match r.2 with
        | .ok _ => (r.1, .ok response)
        | .error e => (r.1, .error e)
      | none => (st1, .error (.keyError "id"))
    else (st1, .ok response)

/-- `PlaneClient.get_modules` (lines 139-143). -/
def get_modules (c : Client) (st : OpState) : OpState × Except PError Json :=
  let p := runCall st ⟨"GET", modulesEndpoint c, none⟩
  match p.2 with
  | .error e => (p.1, .error e)
  | .ok j => (p.1, .ok (j.getD "results" (.arr [])))

/-- `PlaneClient.get_module_issues` (lines 239-244). -/
def get_module_issues (c : Client) (moduleId : String) (st : OpState) :
    OpState × Except PError Json :=
  let p := runCall st ⟨"GET", moduleIssuesEndpoint c moduleId, none⟩
  match p.2 with
  | .error e => (p.1, .error e)
  | .ok j => (p.1, .ok (j.getD "results" (.arr [])))

/-- `PlaneClient.delete_issue` (lines 246-249). -/
def delete_issue (c : Client) (issueId : String) (st : OpState) :
    OpState × Except PError Json :=
  runCall st ⟨"DELETE", issueDetailEndpoint c issueId, none⟩

/-- `PlaneClient.delete_module` (lines 251-254). -/
def delete_module (c : Client) (moduleId : String) (st : OpState) :
    OpState × Except PError Json :=
  runCall st ⟨"DELETE", moduleDetailEndpoint c moduleId, none⟩

/-- Lines 284-291 of `cleanup_project`: normalize an association record.
For a dict the issue fields are taken from the key "issue" if present,
else from "issue_detail", else from the record itself; a non-dict leaves
`issue_data` as `None`. -/
def moduleIssuePayload (mi : Json) : Option Json :=
  match mi with
  | .obj fs =>
    match lookupField fs "issue" with
    | some v => some v
    | none =>
      match lookupField fs "issue_detail" with
      | some v => some v
      | none => some (.obj fs)
  | _ => none

/-- The identifier a record yields after normalization and the usability
checks of lines 293-302, or `none` when the record is skipped. -/
def usableIssueId (mi : Json) : Option Json :=
  match moduleIssuePayload mi with
  | none => none
  | some d =>
    if !d.pyTruthy || !d.isObj then none
    else
      match d.get? "id" with
      | none => none
      | some idv => if !idv.pyTruthy then none else some idv

/-- The per-record body of the issue loop (lines 275-310): skip unusable
records with a warning, otherwise delete; a delete failure is caught and
logged, so the state advances either way. -/
def issueStep (c : Client) (mi : Json) (st : OpState) : OpState :=
  match moduleIssuePayload mi with
  | none => pushWarning st "Skipping invalid issue data"
  | some d =>
    if !d.pyTruthy || !d.isObj then pushWarning st "Skipping invalid issue data"
    else
      match d.get? "id" with
      | none => pushWarning st "Skipping issue without ID"
      | some idv =>
        if !idv.pyTruthy then pushWarning st "Skipping issue without ID"
        else (delete_issue c idv.asPathStr st).1

/-- The issue loop of `cleanup_project` over one module. -/
def cleanupIssuesLoop (c : Client) (items : List Json) (st : OpState) : OpState :=
  match items with
  | [] => st
  | mi :: rest => cleanupIssuesLoop c rest (issueStep c mi st)

/-- One module of `cleanup_project` (lines 264-320).  The subscripts
module["id"] and module["name"] sit outside the per-module try, so their
failure propagates to the outer handler which re-raises; everything else
in the module body is caught and logged, after which the loop continues. -/
def cleanupModuleStep (c : Client) (m : Json) (st : OpState) :
    OpState × Option PError :=
  match m with
  | .obj fs =>
    match lookupField fs "id" with
    | none => (st, some (.keyError "id"))
    | some mid =>
      match lookupField fs "name" with
      | none => (st, some (.keyError "name"))
      | some _ =>
        let p := get_module_issues c mid.asPathStr st
        match p.2 with
        | .error _ => (p.1, none)
        | .ok issuesJson =>
          match issuesJson with
          | .arr items =>
            let st1 := cleanupIssuesLoop c items p.1
            ((delete_module c mid.asPathStr st1).1, none)
          | _ => (p.1, none)
  | _ => (st, some .typeError)

/-- The module loop of `cleanup_project`. -/
def cleanupModulesLoop (c : Client) (ms : List Json) (st : OpState) :
    OpState × Except PError Unit :=
  match ms with
  | [] => (st, .ok ())
  | m :: rest =>
    match cleanupModuleStep c m st with
    | (st1, none) => cleanupModulesLoop c rest st1
    | (st1, some e) => (st1, .error e)

/-- `PlaneClient.cleanup_project` (lines 256-325). -/
def cleanup_project (c : Client) (st : OpState) : OpState × Except PError Unit :=
  let p := get_modules c st
  match p.2 with
  | .error e => (p.1, .error e)
  | .ok modulesJson =>
    match modulesJson with
    | .arr ms => cleanupModulesLoop c ms p.1
    | _ => (p.1, .error .typeError)

/-! ## Helper lemmas -/

lemma natBeqFalse {a b : Nat} (h : a ≠ b) : (a == b) = false :=
  beq_eq_false_iff_ne.mpr h

lemma retryableStatus_false_of_lt {s : Nat} (h : s < 400) : retryableStatus s = false := by
  have hd : decide (400 ≤ s) = false := decide_eq_false (by omega)
  simp [retryableStatus, hd]

lemma terminalResult_of_lt {method : String} {r : HttpResponse} (h : r.status < 400) :
    terminalResult method r = successValue method r := by
  unfold terminalResult
  rw [natBeqFalse (by omega : r.status ≠ 400), natBeqFalse (by omega : r.status ≠ 403)]
  rfl

/-- C1: with max_retries = 3, two transport-level failures followed by a
successful attempt make `_make_request` return the successful result after
exactly three attempts with the fixed delay slept between them, and three
consecutive transport-level failures make it raise the retry-exhaustion
error wrapping the network failure, again after exactly three attempts
with the fixed delay slept between them. -/
theorem C1_transport_retry (c : Client) (h3 : c.maxRetries = 3) :
    (∀ method endpoint data env (r : HttpResponse) (j : Json),
        env 0 = .raises → env 1 = .raises → env 2 = .returns r →
        r.status < 400 → successValue method r = .ok j →
        (makeRequest c method endpoint data env).result = .ok j ∧
        (makeRequest c method endpoint data env).sent.length = 3 ∧
        (makeRequest c method endpoint data env).sleeps = [c.retryDelay, c.retryDelay])
    ∧
    (∀ method endpoint data env,
        env 0 = .raises → env 1 = .raises → env 2 = .raises →
        (makeRequest c method endpoint data env).result
            = .error (.retryExhausted .netError) ∧
        (makeRequest c method endpoint data env).sent.length = 3 ∧
        (makeRequest c method endpoint data env).sleeps = [c.retryDelay, c.retryDelay]) := by
  constructor
  · intro method endpoint data env r j h0 h1 h2 hlt hsv
    have h429 : (r.status == 429) = false := natBeqFalse (by omega)
    simp [makeRequest, makeRequestAux, h0, h1, h2, h3, h429,
          retryableStatus_false_of_lt hlt, terminalResult_of_lt hlt, hsv]
  · intro method endpoint data env h0 h1 h2
    simp [makeRequest, makeRequestAux, h0, h1, h2, h3]

/-- Witness for C1 at a concrete client and environment. -/
theorem C1_transport_retry_witness :
    ((⟨"0123456789abcdef0123456789abcdef", "ws", "proj", "https://example.test", 5, 3⟩ :
        Client).maxRetries = 3) ∧
    (makeRequest ⟨"0123456789abcdef0123456789abcdef", "ws", "proj", "https://example.test", 5, 3⟩
        "GET" "/x" none
        (fun i => if i ≤ 1 then .raises else .returns ⟨200, none, "body", none, some (.obj [])⟩)).result
      = .ok (.obj []) ∧
    (makeRequest ⟨"0123456789abcdef0123456789abcdef", "ws", "proj", "https://example.test", 5, 3⟩
        "GET" "/x" none (fun _ => .raises)).result
      = .error (.retryExhausted .netError) := by
  refine ⟨rfl, ?_, ?_⟩
  · exact (((C1_transport_retry _ rfl).1 "GET" "/x" none _
      ⟨200, none, "body", none, some (.obj [])⟩ (.obj [])
      rfl rfl rfl (by decide) rfl).1)
  · exact (((C1_transport_retry _ rfl).2 "GET" "/x" none (fun _ => .raises)
      rfl rfl rfl).1)

lemma ne429_of_retryable {s : Nat} (h : retryableStatus s = true) : (s == 429) = false := by
  simp only [retryableStatus, Bool.and_eq_true, Bool.not_eq_true', beq_eq_false_iff_ne] at h
  exact natBeqFalse h.2

/-- C2 counterexample: a request whose every attempt receives status 500
is retried — `raise_for_status` raises `requests.HTTPError`, a subclass of
`RequestException`, so the retry handler catches it — and `_make_request`
makes three transport attempts, not one, before raising a
retry-exhaustion error wrapping the HTTP error. -/
theorem C2_single_attempt_counterexample :
    (makeRequest ⟨"0123456789abcdef0123456789abcdef", "ws", "proj", "https://example.test", 5, 3⟩
        "GET" "/x" none (fun _ => .returns ⟨500, none, "oops", none, none⟩)).sent.length = 3 ∧
    (makeRequest ⟨"0123456789abcdef0123456789abcdef", "ws", "proj", "https://example.test", 5, 3⟩
        "GET" "/x" none (fun _ => .returns ⟨500, none, "oops", none, none⟩)).sent.length ≠ 1 ∧
    (makeRequest ⟨"0123456789abcdef0123456789abcdef", "ws", "proj", "https://example.test", 5, 3⟩
        "GET" "/x" none (fun _ => .returns ⟨500, none, "oops", none, none⟩)).result
      = .error (.retryExhausted (.httpError 500)) :=
  ⟨rfl, by decide, rfl⟩

/-- C2 amended: a received non-success status other than 429, 400 and 403
makes `raise_for_status` raise an `HTTPError`, which — being a
`RequestException` — is caught by the retry handler: with max_retries = 3
the request is re-attempted with the fixed delay between attempts, and
after three attempts that all yield such a status `_make_request` raises
the "request failed after 3 retries" error wrapping the HTTP error;
the error does not propagate after a single attempt. -/
theorem C2_http_status_retried (c : Client) (h3 : c.maxRetries = 3) :
    ∀ method endpoint data env (r : HttpResponse),
      env 0 = .returns r → env 1 = .returns r → env 2 = .returns r →
      retryableStatus r.status = true →
      (makeRequest c method endpoint data env).result
          = .error (.retryExhausted (.httpError r.status)) ∧
      (makeRequest c method endpoint data env).sent.length = 3 ∧
      (makeRequest c method endpoint data env).sleeps = [c.retryDelay, c.retryDelay] := by
  intro method endpoint data env r h0 h1 h2 hrs
  simp [makeRequest, makeRequestAux, h0, h1, h2, h3, hrs, ne429_of_retryable hrs]

/-- Witness for the amended C2 at a concrete client and environment. -/
theorem C2_http_status_retried_witness :
    ((⟨"0123456789abcdef0123456789abcdef", "ws", "proj", "https://example.test", 5, 3⟩ :
        Client).maxRetries = 3) ∧ retryableStatus 503 = true ∧
    (makeRequest ⟨"0123456789abcdef0123456789abcdef", "ws", "proj", "https://example.test", 5, 3⟩
        "POST" "/y" none (fun _ => .returns ⟨503, none, "unavailable", none, none⟩)).result
      = .error (.retryExhausted (.httpError 503)) :=
  ⟨rfl, by decide,
    (C2_http_status_retried _ rfl "POST" "/y" none _ ⟨503, none, "unavailable", none, none⟩
      rfl rfl rfl (by decide)).1⟩

/-- C9: the 400 "module already exists" special case of `_make_request` is
not restricted to module creation: for every method and endpoint, a first
response with status 400 whose body text contains the module-exists
message and parses to an object with an id makes `_make_request` return
that id as a successful result after a single attempt, with no error
raised. -/
theorem C9_module_exists_any_request (c : Client) (hmr : 0 < c.maxRetries) :
    ∀ method endpoint data env (r : HttpResponse) (moduleId : String),
      env 0 = .returns r → r.status = 400 →
      strContains r.bodyText moduleExistsMsg = true →
      r.bodyJsonId = some moduleId →
      (makeRequest c method endpoint data env).result
          = .ok (.obj [("id", .str moduleId)]) ∧
      (makeRequest c method endpoint data env).sent.length = 1 ∧
      (makeRequest c method endpoint data env).sleeps = [] := by
  intro method endpoint data env r moduleId h0 hst hc hid
  obtain ⟨fl, hfl⟩ : ∃ fl, c.maxRetries = fl + 1 := ⟨c.maxRetries - 1, by omega⟩
  simp [makeRequest, hfl, makeRequestAux, h0, hst, hc, hid, terminalResult, retryableStatus]

/-- Witness for C9: a DELETE request to an issue endpoint also triggers
the special case. -/
theorem C9_module_exists_any_request_witness :
    (0 < (⟨"0123456789abcdef0123456789abcdef", "ws", "proj", "https://example.test", 5, 3⟩ :
        Client).maxRetries) ∧
    (makeRequest ⟨"0123456789abcdef0123456789abcdef", "ws", "proj", "https://example.test", 5, 3⟩
        "DELETE" "/workspaces/ws/projects/proj/issues/i9/" none
        (fun _ => .returns ⟨400, none, moduleExistsMsg, some "m-77", none⟩)).result
      = .ok (.obj [("id", .str "m-77")]) :=
  ⟨by decide,
    (C9_module_exists_any_request _ (by decide) "DELETE"
      "/workspaces/ws/projects/proj/issues/i9/" none _
      ⟨400, none, moduleExistsMsg, some "m-77", none⟩ "m-77" rfl rfl rfl rfl).1⟩

/-- C10: a first response with status 429 whose Retry-After header is
present but not parseable as a decimal integer makes `_make_request`
raise the value-conversion error from `int(...)` after a single attempt:
no sleep happens and the request is not retried. -/
theorem C10_unparseable_retry_after (c : Client) (hmr : 0 < c.maxRetries) :
    ∀ method endpoint data env (r : HttpResponse) (hdr : String),
      env 0 = .returns r → r.status = 429 →
      r.retryAfter = some hdr → pyInt? hdr = none →
      (makeRequest c method endpoint data env).result = .error .valueConversion ∧
      (makeRequest c method endpoint data env).sent.length = 1 ∧
      (makeRequest c method endpoint data env).sleeps = [] := by
  intro method endpoint data env r hdr h0 hst hra hpi
  obtain ⟨fl, hfl⟩ : ∃ fl, c.maxRetries = fl + 1 := ⟨c.maxRetries - 1, by omega⟩
  simp [makeRequest, hfl, makeRequestAux, h0, hst, retryWait, hra, hpi]

/-- Witness for C10 at a concrete unparseable header. -/
theorem C10_unparseable_retry_after_witness :
    pyInt? "soon" = none ∧
    (makeRequest ⟨"0123456789abcdef0123456789abcdef", "ws", "proj", "https://example.test", 5, 3⟩
        "GET" "/x" none
        (fun _ => .returns ⟨429, some "soon", "slow down", none, none⟩)).result
      = .error .valueConversion :=
  ⟨rfl,
    (C10_unparseable_retry_after _ (by decide) "GET" "/x" none _
      ⟨429, some "soon", "slow down", none, none⟩ "soon" rfl rfl rfl rfl).1⟩

/-- C3: `create_module` is idempotent in its result.  A first call whose
creation succeeds with a body carrying id X returns X; a second call with
the same name whose response is a 400 carrying the module-exists message
and the existing id X also returns X instead of raising, so both calls
return the same identifier. -/
theorem C3_create_module_idempotent (c : Client) (hmr : 0 < c.maxRetries) :
    ∀ (name : String) env1 env2 (r1 r2 : HttpResponse) (j1 : Json) (X : String),
      env1 0 = .returns r1 → r1.status < 400 → r1.bodyText ≠ "" →
      r1.respJson = some j1 → j1.get? "id" = some (.str X) →
      env2 0 = .returns r2 → r2.status = 400 →
      strContains r2.bodyText moduleExistsMsg = true → r2.bodyJsonId = some X →
      create_module c name env1 = .ok (.str X) ∧
      create_module c name env2 = .ok (.str X) := by
  intro name env1 env2 r1 r2 j1 X h10 h1lt h1bt h1j h1id h20 h2st h2c h2id
  obtain ⟨fl, hfl⟩ : ∃ fl, c.maxRetries = fl + 1 := ⟨c.maxRetries - 1, by omega⟩
  have h429 : (r1.status == 429) = false := natBeqFalse (by omega)
  have hbt : (r1.bodyText == "") = false := beq_eq_false_iff_ne.mpr h1bt
  constructor
  · simp [create_module, makeRequest, hfl, makeRequestAux, h10, h429,
          retryableStatus_false_of_lt h1lt, terminalResult_of_lt h1lt,
          successValue, hbt, h1j, h1id]
  · simp [create_module, makeRequest, hfl, makeRequestAux, h20, h2st, h2c, h2id,
          terminalResult, retryableStatus, Json.get?, lookupField]

/-- Witness for C3 at a concrete pair of environments. -/
theorem C3_create_module_idempotent_witness :
    create_module ⟨"0123456789abcdef0123456789abcdef", "ws", "proj", "https://example.test", 5, 3⟩
        "Sprint 1"
        (fun _ => .returns ⟨201, none, "created", some "ignored", some (.obj [("id", .str "mod-9")])⟩)
      = .ok (.str "mod-9") ∧
    create_module ⟨"0123456789abcdef0123456789abcdef", "ws", "proj", "https://example.test", 5, 3⟩
        "Sprint 1"
        (fun _ => .returns ⟨400, none, moduleExistsMsg, some "mod-9", none⟩)
      = .ok (.str "mod-9") :=
  C3_create_module_idempotent _ (by decide) "Sprint 1" _ _
    ⟨201, none, "created", some "ignored", some (.obj [("id", .str "mod-9")])⟩
    ⟨400, none, moduleExistsMsg, some "mod-9", none⟩
    (.obj [("id", .str "mod-9")]) "mod-9"
    rfl (by decide) (by decide) rfl rfl rfl rfl rfl rfl

lemma makeRequestAux_settled (c : Client) (method endpoint : String) (data : Option Json)
    (env : Nat → AttemptOutcome) (fl retries : Nat) (r : HttpResponse)
    (h0 : env 0 = .returns r) (h429 : (r.status == 429) = false)
    (hrs : retryableStatus r.status = false) :
    makeRequestAux c method endpoint data env (fl + 1) retries
      = ⟨terminalResult method r, [sentRequest c method endpoint data], []⟩ := by
  simp [makeRequestAux, h0, h429, hrs]

lemma makeRequestAux_429_step (c : Client) (method endpoint : String) (data : Option Json)
    (env : Nat → AttemptOutcome) (fl retries : Nat) (r : HttpResponse) (w : Int)
    (h0 : env 0 = .returns r) (hst : r.status = 429) (hw : retryWait c r = some w) :
    makeRequestAux c method endpoint data env (fl + 1) retries
      = ⟨(makeRequestAux c method endpoint data (fun i => env (i + 1)) fl (retries + 1)).result,
         sentRequest c method endpoint data
           :: (makeRequestAux c method endpoint data (fun i => env (i + 1)) fl (retries + 1)).sent,
         w :: (makeRequestAux c method endpoint data (fun i => env (i + 1)) fl (retries + 1)).sleeps⟩ := by
  simp [makeRequestAux, h0, hst, hw]

/-- A run that receives `k` rate-limit responses and then a response whose
status settles the request: every 429 sleeps its Retry-After wait and
re-issues the identical request, and the settling response decides the
result, independently of the retry counter. -/
lemma rateLimitRun (c : Client) (method endpoint : String) (data : Option Json) :
    ∀ (k : Nat) (env : Nat → AttemptOutcome) (w : Nat → Int) (r : HttpResponse)
      (fl retries : Nat),
      k < fl + 1 →
      (∀ i, i < k → ∃ ri, env i = .returns ri ∧ ri.status = 429 ∧ retryWait c ri = some (w i)) →
      env k = .returns r → (r.status == 429) = false → retryableStatus r.status = false →
      makeRequestAux c method endpoint data env (fl + 1) retries
        = ⟨terminalResult method r,
           List.replicate (k + 1) (sentRequest c method endpoint data),
           (List.range k).map w⟩ := by
  intro k
  induction k with
  | zero =>
    intro env w r fl retries _ _ hk h429 hrs
    simp [makeRequestAux_settled c method endpoint data env fl retries r hk h429 hrs]
  | succ k ih =>
    intro env w r fl retries hfuel h429s hk h429 hrs
    obtain ⟨r0, h00, h0st, h0w⟩ := h429s 0 (Nat.succ_pos k)
    obtain ⟨fl2, hfl2⟩ : ∃ fl2, fl = fl2 + 1 := ⟨fl - 1, by omega⟩
    subst hfl2
    rw [makeRequestAux_429_step c method endpoint data env (fl2 + 1) retries r0 (w 0) h00 h0st h0w]
    rw [ih (fun i => env (i + 1)) (fun i => w (i + 1)) r fl2 (retries + 1)
          (by omega)
          (fun i hi => h429s (i + 1) (by omega))
          hk h429 hrs]
    simp [List.range_succ_eq_map, List.map_map, Function.comp_def, List.replicate_succ]

/-- C4 counterexample environment: one rate-limit response, then two
transport failures, then a successful response. -/
def c4Env : Nat → AttemptOutcome := fun i =>
  if i == 0 then .returns ⟨429, none, "", none, none⟩
  else if i ≤ 2 then .raises
  else .returns ⟨200, none, "body", none, some (.obj [])⟩

/-- C4 counterexample: the first response is a 429 without Retry-After
(one rate-limit response, fewer than max_retries), yet the final result
differs from the run without the rate-limited response, because the
rate-limit retry consumed the shared retry budget: the rate-limited run
exhausts its retries on the following transport failures while the run
without the 429 reaches the successful attempt. -/
theorem C4_rate_limit_counterexample :
    (makeRequest ⟨"0123456789abcdef0123456789abcdef", "ws", "proj", "https://example.test", 5, 3⟩
        "GET" "/x" none c4Env).result = .error (.retryExhausted .netError) ∧
    (makeRequest ⟨"0123456789abcdef0123456789abcdef", "ws", "proj", "https://example.test", 5, 3⟩
        "GET" "/x" none (fun i => c4Env (i + 1))).result = .ok (.obj []) ∧
    (makeRequest ⟨"0123456789abcdef0123456789abcdef", "ws", "proj", "https://example.test", 5, 3⟩
        "GET" "/x" none c4Env).result
      ≠ (makeRequest ⟨"0123456789abcdef0123456789abcdef", "ws", "proj", "https://example.test", 5, 3⟩
          "GET" "/x" none (fun i => c4Env (i + 1))).result := by
  refine ⟨rfl, rfl, ?_⟩
  intro h
  rw [show (makeRequest ⟨"0123456789abcdef0123456789abcdef", "ws", "proj", "https://example.test", 5, 3⟩
        "GET" "/x" none c4Env).result = .error (.retryExhausted .netError) from rfl] at h
  rw [show (makeRequest ⟨"0123456789abcdef0123456789abcdef", "ws", "proj", "https://example.test", 5, 3⟩
        "GET" "/x" none (fun i => c4Env (i + 1))).result = .ok (.obj []) from rfl] at h
  exact Except.noConfusion h

/-- C4 amended: for every request whose first `k < max_retries` responses
have status 429 with Retry-After parsing to `w i` seconds (the fixed
5-second delay when the header is absent), and whose next attempt returns
a response `r` that settles the request without retrying (not a 429 and
not a status re-raised as HTTPError), `_make_request` sleeps exactly the
waits `w 0 .. w (k-1)` in order, re-issues the identical request — same
method, URL, headers and body — on all `k + 1` attempts, and its final
result equals the result of the same request without the rate-limited
responses.  (The original claim, without the condition that the attempt
after the 429s settles the request, is refuted by
`C4_rate_limit_counterexample`: rate-limit retries consume the shared
retry budget.) -/
theorem C4_rate_limit_amended (c : Client) :
    ∀ (k : Nat) method endpoint data (env : Nat → AttemptOutcome) (w : Nat → Int)
      (r : HttpResponse),
      k < c.maxRetries →
      (∀ i, i < k → ∃ ri, env i = .returns ri ∧ ri.status = 429 ∧ retryWait c ri = some (w i)) →
      env k = .returns r → (r.status == 429) = false → retryableStatus r.status = false →
      makeRequest c method endpoint data env
        = ⟨terminalResult method r,
           List.replicate (k + 1) (sentRequest c method endpoint data),
           (List.range k).map w⟩ ∧
      (makeRequest c method endpoint data (fun i => env (i + k))).result
        = terminalResult method r := by
  intro k method endpoint data env w r hkmax h429s hk h429 hrs
  obtain ⟨fl, hfl⟩ : ∃ fl, c.maxRetries = fl + 1 := ⟨c.maxRetries - 1, by omega⟩
  constructor
  · unfold makeRequest
    rw [hfl]
    exact rateLimitRun c method endpoint data k env w r fl 0 (by omega) h429s hk h429 hrs
  · unfold makeRequest
    rw [hfl]
    rw [rateLimitRun c method endpoint data 0 (fun i => env (i + k)) w r fl 0
          (by omega) (by omega) (by simpa using hk) h429 hrs]

/-- Witness for the amended C4: two 429 responses (one with
Retry-After 2, one without a header), then a success. -/
theorem C4_rate_limit_amended_witness :
    (makeRequest ⟨"0123456789abcdef0123456789abcdef", "ws", "proj", "https://example.test", 5, 3⟩
        "GET" "/w" none
        (fun i => if i == 0 then .returns ⟨429, some "2", "", none, none⟩
                  else if i == 1 then .returns ⟨429, none, "", none, none⟩
                  else .returns ⟨200, none, "body", none, some (.str "payload")⟩))
      = ⟨.ok (.str "payload"),
         List.replicate 3 (sentRequest
           ⟨"0123456789abcdef0123456789abcdef", "ws", "proj", "https://example.test", 5, 3⟩
           "GET" "/w" none),
         [2, 5]⟩ := by
  have h := (C4_rate_limit_amended
      ⟨"0123456789abcdef0123456789abcdef", "ws", "proj", "https://example.test", 5, 3⟩
      2 "GET" "/w" none
      (fun i => if i == 0 then .returns ⟨429, some "2", "", none, none⟩
                else if i == 1 then .returns ⟨429, none, "", none, none⟩
                else .returns ⟨200, none, "body", none, some (.str "payload")⟩)
      (fun i => if i == 0 then 2 else 5)
      ⟨200, none, "body", none, some (.str "payload")⟩
      (by decide)
      (by
        intro i hi
        interval_cases i
        · exact ⟨⟨429, some "2", "", none, none⟩, rfl, rfl, rfl⟩
        · exact ⟨⟨429, none, "", none, none⟩, rfl, rfl, rfl⟩)
      rfl rfl (by decide)).1
  rw [h]
  rfl

/-- Whether construction produced a client. -/
def initSucceeds (o : InitOutcome) : Bool :=
  match o.result with
  | .ok _ => true
  | .error _ => false

/-- C6 counterexample: a shape-valid configuration whose probe request
returns status 500 — a non-401 outcome — still fails construction,
because `raise_for_status` on the probe response is wrapped into a
`ValueError` too; so construction success is not equivalent to
"shape-valid and probe non-401". -/
theorem C6_construction_counterexample :
    shapeValid ⟨some "0123456789abcdef0123456789abcdef", some "ws", some "proj", none⟩ = true ∧
    (500 : Nat) ≠ 401 ∧
    clientInit ⟨some "0123456789abcdef0123456789abcdef", some "ws", some "proj", none⟩
        (.returns 500)
      = ⟨true, .error (.probeHttpStatus 500)⟩ :=
  ⟨by decide, by decide, rfl⟩

/-- C6 amended: construction succeeds iff the configuration is
shape-valid and the probe request returns a received status on which
`raise_for_status` does not raise (outside 400..599) — a 401 is a
distinct authentication failure, but every other error status and a
transport failure of the probe also fail construction; and for every
configuration whose token is absent, empty or shorter than 32 characters,
construction fails with the configuration error before any network
call. -/
theorem C6_construction_amended (e : EnvVars) :
    (∀ probe, initSucceeds (clientInit e probe) = true ↔
        (shapeValid e = true ∧ ∃ s, probe = .returns s ∧ ¬(400 ≤ s ∧ s < 600))) ∧
    (∀ probe, (e.planeApiKey.getD "").length < 32 →
        clientInit e probe = ⟨false, .error .invalidApiKey⟩) := by
  constructor
  · intro probe
    constructor
    · intro h
      cases probe with
      | raises =>
        exfalso
        unfold clientInit at h
        split_ifs at h <;> simp [initSucceeds] at h
      | returns s =>
        unfold clientInit at h
        split_ifs at h with h1 h2
        · simp [initSucceeds] at h
        · simp [initSucceeds] at h
        · simp only [initSucceeds] at h
          split_ifs at h with h3 h4
          refine ⟨?_, s, rfl, ?_⟩
          · simp only [Bool.or_eq_true, not_or, Bool.not_eq_true', Bool.not_eq_false,
                       decide_eq_true_eq] at h1 h2
            simp only [shapeValid, h1.1, h2.1, h2.2, Bool.and_eq_true, Bool.true_and,
                       Bool.and_true, decide_eq_true_eq]
            omega
          · intro hrange
            simp only [Bool.and_eq_true, decide_eq_true_eq] at h4
            exact h4 ⟨hrange.1, hrange.2⟩
    · rintro ⟨hsv, s, rfl, hs⟩
      simp only [shapeValid, Bool.and_eq_true, decide_eq_true_eq] at hsv
      obtain ⟨⟨⟨hA, hlen⟩, hW⟩, hP⟩ := hsv
      have h401 : (s == 401) = false := natBeqFalse (fun h => hs (by omega))
      have hrange : (decide (400 ≤ s) && decide (s < 600)) = false := by
        by_cases h4 : 400 ≤ s
        · have h6 : ¬s < 600 := fun h => hs ⟨h4, h⟩
          simp [h6]
        · simp [h4]
      have hc1 : ¬((!pyTruthyOpt e.planeApiKey
          || decide ((e.planeApiKey.getD "").length < 32)) = true) := by
        simp [hA]
        omega
      have hc2 : ¬((!pyTruthyOpt e.planeWorkspaceSlug
          || !pyTruthyOpt e.planeProjectId) = true) := by
        simp [hW, hP]
      unfold clientInit
      rw [if_neg hc1, if_neg hc2]
      simp [initSucceeds, h401, hrange]
  · intro probe hlen
    unfold clientInit
    have hc1 : (!pyTruthyOpt e.planeApiKey
        || decide ((e.planeApiKey.getD "").length < 32)) = true := by
      simp [hlen]
    rw [if_pos hc1]

/-- Witness for the amended C6: a good configuration with a 200 probe
succeeds; a configuration with a 10-character token fails before the
probe. -/
theorem C6_construction_amended_witness :
    initSucceeds (clientInit
        ⟨some "0123456789abcdef0123456789abcdef", some "ws", some "proj", none⟩
        (.returns 200)) = true ∧
    clientInit ⟨some "shorttoken", some "ws", some "proj", none⟩ (.returns 200)
      = ⟨false, .error .invalidApiKey⟩ :=
  ⟨((C6_construction_amended
      ⟨some "0123456789abcdef0123456789abcdef", some "ws", some "proj", none⟩).1
        (.returns 200)).mpr ⟨by decide, 200, rfl, by decide⟩,
   (C6_construction_amended ⟨some "shorttoken", some "ws", some "proj", none⟩).2
      (.returns 200) (by decide)⟩

/-- The issue-creation call as `create_issue` issues it. -/
def createIssueCall (c : Client) (issue : Issue) : ApiCall :=
  ⟨"POST", issuesEndpoint c,
   some (.obj [("name", .str issue.name), ("state", .str defaultStateId)])⟩

/-- The comment-creation call as `create_comment` issues it. -/
def createCommentCall (c : Client) (issueId comment : String) : ApiCall :=
  ⟨"POST", issueCommentsEndpoint c issueId, some (commentData comment)⟩

/-- The module-link call as `link_issue_to_module` issues it. -/
def linkModuleCall (c : Client) (issueId moduleId : String) : ApiCall :=
  ⟨"POST", moduleIssuesEndpoint c moduleId, some (.obj [("issues", .arr [.str issueId])])⟩

/-- C5: with a present description and module id, `create_issue` issues
its sub-operations in the order create-issue, create-comment,
link-to-module, whatever the outcomes of the last two calls are; a failing
comment call leaves the overall result the created issue and records the
warning, while a failing link call propagates its error. -/
theorem C5_create_issue_order (c : Client) (issue : Issue) (resp : Json)
    (issueId moduleId : String) (p1 p2 : Except PError Json)
    (rest : List (Except PError Json))
    (hdesc : issue.description ≠ "")
    (hmod : issue.module_id = some moduleId) (hmid : moduleId ≠ "")
    (hid : resp.get? "id" = some (.str issueId)) :
    (create_issue c issue ⟨.ok resp :: p1 :: p2 :: rest, [], []⟩).1.calls
        = [createIssueCall c issue,
           createCommentCall c issueId issue.description,
           linkModuleCall c issueId moduleId] ∧
    (∀ e, p1 = .error e →
        (create_issue c issue ⟨.ok resp :: p1 :: p2 :: rest, [], []⟩).1.warnings
          = ["Warning: Could not add description comment"] ∧
        (∀ v, p2 = .ok v →
            (create_issue c issue ⟨.ok resp :: p1 :: p2 :: rest, [], []⟩).2 = .ok resp)) ∧
    (∀ e, p2 = .error e →
        (create_issue c issue ⟨.ok resp :: p1 :: p2 :: rest, [], []⟩).2 = .error e) := by
  have hdb : (issue.description == "") = false := beq_eq_false_iff_ne.mpr hdesc
  have hmb : pyTruthyOptStr (some moduleId) = true := by
    simp [pyTruthyOptStr, hmid]
  refine ⟨?_, ?_, ?_⟩
  · cases p1 <;> cases p2 <;>
      simp [create_issue, runCall, create_comment, link_issue_to_module, pushWarning,
            hdb, hmb, hmod, hid, Json.asPathStr,
            createIssueCall, createCommentCall, linkModuleCall]
  · intro e he
    subst he
    cases p2 <;>
      simp [create_issue, runCall, create_comment, link_issue_to_module, pushWarning,
            hdb, hmb, hmod, hid, Json.asPathStr]
  · intro e he
    subst he
    cases p1 <;>
      simp [create_issue, runCall, create_comment, link_issue_to_module, pushWarning,
            hdb, hmb, hmod, hid, Json.asPathStr]

/-- Witness for C5: a failing comment call and a succeeding link call. -/
theorem C5_create_issue_order_witness :
    (create_issue ⟨"0123456789abcdef0123456789abcdef", "ws", "proj", "https://example.test", 5, 3⟩
        ⟨"task", "details", some "mod-1"⟩
        ⟨[.ok (.obj [("id", .str "iss-1")]), .error .netError, .ok (.obj [])], [], []⟩).1.calls
      = [createIssueCall
           ⟨"0123456789abcdef0123456789abcdef", "ws", "proj", "https://example.test", 5, 3⟩
           ⟨"task", "details", some "mod-1"⟩,
         createCommentCall
           ⟨"0123456789abcdef0123456789abcdef", "ws", "proj", "https://example.test", 5, 3⟩
           "iss-1" "details",
         linkModuleCall
           ⟨"0123456789abcdef0123456789abcdef", "ws", "proj", "https://example.test", 5, 3⟩
           "iss-1" "mod-1"] ∧
    (create_issue ⟨"0123456789abcdef0123456789abcdef", "ws", "proj", "https://example.test", 5, 3⟩
        ⟨"task", "details", some "mod-1"⟩
        ⟨[.ok (.obj [("id", .str "iss-1")]), .error .netError, .ok (.obj [])], [], []⟩).1.warnings
      = ["Warning: Could not add description comment"] ∧
    (create_issue ⟨"0123456789abcdef0123456789abcdef", "ws", "proj", "https://example.test", 5, 3⟩
        ⟨"task", "details", some "mod-1"⟩
        ⟨[.ok (.obj [("id", .str "iss-1")]), .error .netError, .ok (.obj [])], [], []⟩).2
      = .ok (.obj [("id", .str "iss-1")]) := by
  have h := C5_create_issue_order
      ⟨"0123456789abcdef0123456789abcdef", "ws", "proj", "https://example.test", 5, 3⟩
      ⟨"task", "details", some "mod-1"⟩ (.obj [("id", .str "iss-1")]) "iss-1" "mod-1"
      (.error .netError) (.ok (.obj [])) []
      (by decide) rfl (by decide) rfl
  exact ⟨h.1, (h.2.1 .netError rfl).1, (h.2.1 .netError rfl).2 (.obj []) rfl⟩

/-- Test drive of `cleanup_project`: the remote state of one issue as the
environment presents it — its id, its name, and the outcome of the delete
call the cleanup will issue for it. -/
structure IssuePlan where
  issueId : String
  issueName : String
  deleteResult : Except PError Json

/-- The remote state of one module under cleanup: id, name, associated
issues, and the outcome of the module delete call. -/
structure ModulePlan where
  moduleId : String
  moduleName : String
  issues : List IssuePlan
  moduleDeleteResult : Except PError Json

/-- The association record the module-issues listing returns for an
issue: the direct shape, fields on the record itself. -/
def issueRecordJson (ip : IssuePlan) : Json :=
  .obj [("id", .str ip.issueId), ("name", .str ip.issueName)]

/-- The record the modules listing returns for a module. -/
def moduleRecordJson (p : ModulePlan) : Json :=
  .obj [("id", .str p.moduleId), ("name", .str p.moduleName)]

/-- The paginated envelope of the module-issues listing. -/
def issuesResponse (p : ModulePlan) : Json :=
  .obj [("results", .arr (p.issues.map issueRecordJson))]

/-- The paginated envelope of the modules listing. -/
def modulesResponse (plan : List ModulePlan) : Json :=
  .obj [("results", .arr (plan.map moduleRecordJson))]

/-- The oracle outcomes one module consumes: its listing, its issue
deletes, its own delete. -/
def modulePending (p : ModulePlan) : List (Except PError Json) :=
  .ok (issuesResponse p) :: (p.issues.map IssuePlan.deleteResult ++ [p.moduleDeleteResult])

/-- The full oracle for `cleanup_project` over a plan. -/
def planPending (plan : List ModulePlan) : List (Except PError Json) :=
  .ok (modulesResponse plan) :: (plan.map modulePending).flatten

/-- The calls one module contributes: list its issues, delete each issue,
then delete the module. -/
def moduleCalls (c : Client) (p : ModulePlan) : List ApiCall :=
  ⟨"GET", moduleIssuesEndpoint c p.moduleId, none⟩
    :: (p.issues.map (fun ip => (⟨"DELETE", issueDetailEndpoint c ip.issueId, none⟩ : ApiCall))
        ++ [⟨"DELETE", moduleDetailEndpoint c p.moduleId, none⟩])

/-- All calls `cleanup_project` issues over a plan: the modules listing,
then per module its issues first and the module itself after. -/
def planCalls (c : Client) (plan : List ModulePlan) : List ApiCall :=
  ⟨"GET", modulesEndpoint c, none⟩ :: (plan.map (moduleCalls c)).flatten

/-- Whether a call is a delete. -/
def isDeleteCall (call : ApiCall) : Bool := call.method == "DELETE"

lemma cleanupIssuesLoop_plan (c : Client) :
    ∀ (ips : List IssuePlan) (rest : List (Except PError Json))
      (calls : List ApiCall) (warns : List String),
      (∀ ip ∈ ips, ip.issueId ≠ "") →
      cleanupIssuesLoop c (ips.map issueRecordJson)
          ⟨ips.map IssuePlan.deleteResult ++ rest, calls, warns⟩
        = ⟨rest,
           calls ++ ips.map
             (fun ip => (⟨"DELETE", issueDetailEndpoint c ip.issueId, none⟩ : ApiCall)),
           warns⟩ := by
  intro ips
  induction ips with
  | nil => intro rest calls warns _; simp [cleanupIssuesLoop]
  | cons ip tl ih =>
    intro rest calls warns hids
    have hid : (ip.issueId == "") = false :=
      beq_eq_false_iff_ne.mpr (hids ip (by simp))
    have hstep : issueStep c (issueRecordJson ip)
        ⟨ip.deleteResult :: (tl.map IssuePlan.deleteResult ++ rest), calls, warns⟩
        = ⟨tl.map IssuePlan.deleteResult ++ rest,
           calls ++ [⟨"DELETE", issueDetailEndpoint c ip.issueId, none⟩], warns⟩ := by
      simp [issueStep, issueRecordJson, moduleIssuePayload, lookupField,
            Json.pyTruthy, Json.isObj, Json.get?, hid, delete_issue, runCall, Json.asPathStr]
    simp only [List.map_cons, List.cons_append, cleanupIssuesLoop, hstep]
    rw [ih rest (calls ++ [(⟨"DELETE", issueDetailEndpoint c ip.issueId, none⟩ : ApiCall)])
          warns (fun x hx => hids x (by simp [hx]))]
    simp

lemma cleanupModuleStep_plan (c : Client) (p : ModulePlan)
    (rest : List (Except PError Json)) (calls : List ApiCall) (warns : List String)
    (hids : ∀ ip ∈ p.issues, ip.issueId ≠ "") :
    cleanupModuleStep c (moduleRecordJson p) ⟨modulePending p ++ rest, calls, warns⟩
      = (⟨rest, calls ++ moduleCalls c p, warns⟩, none) := by
  have hloop := cleanupIssuesLoop_plan c p.issues (p.moduleDeleteResult :: rest)
      (calls ++ [⟨"GET", moduleIssuesEndpoint c p.moduleId, none⟩]) warns hids
  have h1 : cleanupModuleStep c (moduleRecordJson p) ⟨modulePending p ++ rest, calls, warns⟩
      = ((delete_module c p.moduleId (cleanupIssuesLoop c (p.issues.map issueRecordJson)
            ⟨p.issues.map IssuePlan.deleteResult ++ (p.moduleDeleteResult :: rest),
             calls ++ [(⟨"GET", moduleIssuesEndpoint c p.moduleId, none⟩ : ApiCall)],
             warns⟩)).1, none) := by
    simp [cleanupModuleStep, moduleRecordJson, lookupField, modulePending, get_module_issues,
          runCall, Json.getD, Json.get?, Json.asPathStr, issuesResponse]
  rw [h1, hloop]
  simp [delete_module, runCall, moduleCalls, Json.asPathStr]

lemma cleanupModulesLoop_plan (c : Client) :
    ∀ (plan : List ModulePlan) (rest : List (Except PError Json))
      (calls : List ApiCall) (warns : List String),
      (∀ p ∈ plan, ∀ ip ∈ p.issues, ip.issueId ≠ "") →
      cleanupModulesLoop c (plan.map moduleRecordJson)
          ⟨(plan.map modulePending).flatten ++ rest, calls, warns⟩
        = (⟨rest, calls ++ (plan.map (moduleCalls c)).flatten, warns⟩, .ok ()) := by
  intro plan
  induction plan with
  | nil => intro rest calls warns _; simp [cleanupModulesLoop]
  | cons p tl ih =>
    intro rest calls warns hids
    simp only [List.map_cons, List.flatten_cons, List.append_assoc, cleanupModulesLoop]
    rw [cleanupModuleStep_plan c p ((tl.map modulePending).flatten ++ rest) calls warns
          (hids p (by simp))]
    dsimp only
    rw [ih rest (calls ++ moduleCalls c p) warns (fun q hq => hids q (by simp [hq]))]
    simp

lemma countP_moduleCalls (c : Client) (p : ModulePlan) :
    (moduleCalls c p).countP isDeleteCall = p.issues.length + 1 := by
  simp [moduleCalls, isDeleteCall, List.countP_cons, List.countP_append, List.countP_map,
        Function.comp_def]

/-- C7: on a project whose modules listing yields the plan modules and
whose per-module listings yield the plan issues (each record carrying a
usable id), `cleanup_project` issues exactly the calls of `planCalls`:
for each module its issue deletes first, the module delete after, one
delete per issue and one per module, and this trace does not depend on
the outcomes of the individual delete calls, which may all fail; the
total number of delete calls is the issue count plus the module count,
and the operation finishes without raising and without skip warnings. -/
theorem C7_cleanup_call_trace (c : Client) (plan : List ModulePlan)
    (hids : ∀ p ∈ plan, ∀ ip ∈ p.issues, ip.issueId ≠ "") :
    cleanup_project c ⟨planPending plan, [], []⟩
      = (⟨[], planCalls c plan, []⟩, .ok ()) ∧
    (planCalls c plan).countP isDeleteCall
      = (plan.map (fun p => p.issues.length)).sum + plan.length := by
  constructor
  · simp only [cleanup_project, planPending, get_modules, runCall, Json.getD, Json.get?,
               modulesResponse, lookupField]
    have h := cleanupModulesLoop_plan c plan [] [⟨"GET", modulesEndpoint c, none⟩] [] hids
    simp only [List.append_nil] at h
    simp only [show ((if ("results" == "results") = true
        then some (Json.arr (plan.map moduleRecordJson)) else none) : Option Json)
          = some (.arr (plan.map moduleRecordJson)) from rfl]
    simpa [planCalls] using h
  · induction plan with
    | nil => simp [planCalls, isDeleteCall]
    | cons p tl ih =>
      have htl : ∀ q ∈ tl, ∀ ip ∈ q.issues, ip.issueId ≠ "" :=
        fun q hq => hids q (by simp [hq])
      have ihx := ih htl
      simp only [planCalls, List.map_cons, List.flatten_cons, List.countP_cons,
                 List.countP_append, isDeleteCall] at ihx ⊢
      simp only [countP_moduleCalls c p, isDeleteCall] at *
      simp [List.countP_append, countP_moduleCalls c p, isDeleteCall] at ihx ⊢
      omega

/-- Concrete plan for the C7 witness: two modules, three issues in total,
with one issue delete and one module delete failing. -/
def c7Plan : List ModulePlan :=
  [⟨"m1", "Module One",
     [⟨"i1", "Task A", .ok (.obj [])⟩, ⟨"i2", "Task B", .error .netError⟩],
     .error (.apiError 403 "forbidden")⟩,
   ⟨"m2", "Module Two", [⟨"i3", "Task C", .ok (.obj [])⟩], .ok (.obj [])⟩]

/-- Witness for C7: on the concrete plan the trace is exactly the
expected calls, the delete-call count is 3 + 2, and the failures of the
second issue delete and the first module delete abort nothing. -/
theorem C7_cleanup_call_trace_witness :
    cleanup_project
        ⟨"0123456789abcdef0123456789abcdef", "ws", "proj", "https://example.test", 5, 3⟩
        ⟨planPending c7Plan, [], []⟩
      = (⟨[], planCalls
            ⟨"0123456789abcdef0123456789abcdef", "ws", "proj", "https://example.test", 5, 3⟩
            c7Plan, []⟩, .ok ()) ∧
    (planCalls ⟨"0123456789abcdef0123456789abcdef", "ws", "proj", "https://example.test", 5, 3⟩
        c7Plan).countP isDeleteCall = 5 := by
  have hids : ∀ p ∈ c7Plan, ∀ ip ∈ p.issues, ip.issueId ≠ "" := by
    intro p hp ip hip
    fin_cases hp <;> fin_cases hip <;> decide
  have h := C7_cleanup_call_trace
      ⟨"0123456789abcdef0123456789abcdef", "ws", "proj", "https://example.test", 5, 3⟩
      c7Plan hids
  refine ⟨h.1, ?_⟩
  rw [h.2]
  rfl

/-- C8: `cleanup_project` normalizes each association record by taking
the issue fields from the key "issue" when present, else from
"issue_detail", else from the record itself, and a non-dict record yields
no payload; every record without a usable identifier after normalization
is skipped with a warning — no oracle outcome is consumed, so no delete
call is made for it — and the remaining records are still processed. -/
theorem C8_record_normalization :
    (∀ fs v, lookupField fs "issue" = some v → moduleIssuePayload (.obj fs) = some v) ∧
    (∀ fs v, lookupField fs "issue" = none → lookupField fs "issue_detail" = some v →
        moduleIssuePayload (.obj fs) = some v) ∧
    (∀ fs, lookupField fs "issue" = none → lookupField fs "issue_detail" = none →
        moduleIssuePayload (.obj fs) = some (.obj fs)) ∧
    (∀ mi, mi.isObj = false → moduleIssuePayload mi = none) ∧
    (∀ c mi rest st, usableIssueId mi = none →
        ∃ w, issueStep c mi st = pushWarning st w ∧
          (pushWarning st w).calls = st.calls ∧
          (pushWarning st w).pending = st.pending ∧
          (pushWarning st w).warnings = st.warnings ++ [w] ∧
          cleanupIssuesLoop c (mi :: rest) st = cleanupIssuesLoop c rest (pushWarning st w)) := by
  refine ⟨?_, ?_, ?_, ?_, ?_⟩
  · intro fs v h
    simp [moduleIssuePayload, h]
  · intro fs v h1 h2
    simp [moduleIssuePayload, h1, h2]
  · intro fs h1 h2
    simp [moduleIssuePayload, h1, h2]
  · intro mi h
    cases mi <;> simp_all [Json.isObj, moduleIssuePayload]
  · intro c mi rest st hu
    unfold usableIssueId at hu
    have hloop : ∀ w, issueStep c mi st = pushWarning st w →
        ∃ w2, issueStep c mi st = pushWarning st w2 ∧
          (pushWarning st w2).calls = st.calls ∧
          (pushWarning st w2).pending = st.pending ∧
          (pushWarning st w2).warnings = st.warnings ++ [w2] ∧
          cleanupIssuesLoop c (mi :: rest) st = cleanupIssuesLoop c rest (pushWarning st w2) := by
      intro w hw
      refine ⟨w, hw, rfl, rfl, rfl, ?_⟩
      rw [show cleanupIssuesLoop c (mi :: rest) st
            = cleanupIssuesLoop c rest (issueStep c mi st) from rfl, hw]
    cases hmp : moduleIssuePayload mi with
    | none =>
      exact hloop "Skipping invalid issue data" (by simp [issueStep, hmp])
    | some d =>
      rw [hmp] at hu
      dsimp only at hu
      by_cases htr : (!d.pyTruthy || !d.isObj) = true
      · exact hloop "Skipping invalid issue data" (by simp [issueStep, hmp, htr])
      · rw [if_neg htr] at hu
        cases hgid : d.get? "id" with
        | none =>
          exact hloop "Skipping issue without ID" (by simp [issueStep, hmp, htr, hgid])
        | some idv =>
          rw [hgid] at hu
          dsimp only at hu
          by_cases hidt : (!idv.pyTruthy) = true
          · exact hloop "Skipping issue without ID"
              (by simp [issueStep, hmp, htr, hgid, hidt])
          · rw [if_neg hidt] at hu
            exact absurd hu (by simp)

/-- Witness for C8: the nested shapes are accepted, and a record that is
a bare string is skipped with a warning while the loop goes on. -/
theorem C8_record_normalization_witness :
    moduleIssuePayload (.obj [("issue", .obj [("id", .str "i1")])])
      = some (.obj [("id", .str "i1")]) ∧
    moduleIssuePayload (.obj [("issue_detail", .obj [("id", .str "i2")])])
      = some (.obj [("id", .str "i2")]) ∧
    usableIssueId (.str "junk") = none ∧
    (∃ w, issueStep
          ⟨"0123456789abcdef0123456789abcdef", "ws", "proj", "https://example.test", 5, 3⟩
          (.str "junk") ⟨[], [], []⟩
        = pushWarning ⟨[], [], []⟩ w ∧
        (pushWarning (⟨[], [], []⟩ : OpState) w).calls = (⟨[], [], []⟩ : OpState).calls ∧
        (pushWarning (⟨[], [], []⟩ : OpState) w).pending = (⟨[], [], []⟩ : OpState).pending ∧
        (pushWarning (⟨[], [], []⟩ : OpState) w).warnings
          = (⟨[], [], []⟩ : OpState).warnings ++ [w] ∧
        cleanupIssuesLoop
            ⟨"0123456789abcdef0123456789abcdef", "ws", "proj", "https://example.test", 5, 3⟩
            [.str "junk"] ⟨[], [], []⟩
          = cleanupIssuesLoop
              ⟨"0123456789abcdef0123456789abcdef", "ws", "proj", "https://example.test", 5, 3⟩
              [] (pushWarning ⟨[], [], []⟩ w)) :=
  ⟨C8_record_normalization.1 [("issue", .obj [("id", .str "i1")])] _ rfl,
   C8_record_normalization.2.1 [("issue_detail", .obj [("id", .str "i2")])] _ rfl rfl,
   rfl,
   C8_record_normalization.2.2.2.2
     ⟨"0123456789abcdef0123456789abcdef", "ws", "proj", "https://example.test", 5, 3⟩
     (.str "junk") [] ⟨[], [], []⟩ rfl⟩


